import Mathlib

/-
Verification development for the research_analyzer storage/query engine
(src/src/research_analyzer.py).  The SQLite-backed store is shallowly
embedded: each relation is a list of typed rows in insertion (rowid)
order, every operation of the ResearchAnalyzer class is a pure function
on that state, and the wall-clock timestamps that the Python code reads
internally (_now(), and the second-resolution stamp inside _paper_id)
are passed as explicit string arguments.
-/

namespace ResearchAnalyzer

/-- ASCII lowercasing of a string, modelling the case folding used by the
engine (SQLite's lower() folds ASCII only; the Python .lower() calls in the
code are applied to the same ASCII data). -/
def lowerStr (s : String) : String := String.mk (s.data.map Char.toLower)

/-- Join a list of strings with a separator (the semantics of
str.join / String.intercalate, written so that it evaluates by kernel
reduction). -/
def intercalateStr (sep : String) : List String → String
  | [] => ""
  | x :: t => t.foldl (fun acc y => acc ++ sep ++ y) x

/-- Helper for substring search: does the first list occur as a prefix of
the second? -/
def hasPrefixL : List Char → List Char → Bool
  | [], _ => true
  | _ :: _, [] => false
  | a :: as, b :: bs => a = b && hasPrefixL as bs

/-- Does the first list occur as a contiguous sublist of the second? -/
def occursIn (q : List Char) : List Char → Bool
  | [] => q.isEmpty
  | c :: t => hasPrefixL q (c :: t) || occursIn q t

/-- Substring containment on strings: models the SQL predicate
column LIKE :pattern with pattern percent-q-percent, i.e. the fallback
search's containment test (LIKE metacharacters inside the query are not
modelled; all reasoning here uses ordinary substrings). -/
def strContains (hay needle : String) : Bool := occursIn needle.toList hay.toList

/-- Characters kept by the slug regex character class [a-z0-9]. -/
def isSlugChar (c : Char) : Bool :=
  (97 ≤ c.toNat && c.toNat ≤ 122) || (48 ≤ c.toNat && c.toNat ≤ 57)

/-- Collapse runs of dashes to a single dash; the boolean records whether the
previously emitted character was a dash.  Together with the character map in
slugify this reproduces re.sub applied to the pattern matching runs of
non-slug characters, replacement a single dash. -/
def collapseD : Bool → List Char → List Char
  | _, [] => []
  | prevDash, c :: t =>
    if c = '-' then
      (if prevDash then collapseD true t else '-' :: collapseD true t)
    else c :: collapseD false t

/-- The slug fragment of a paper id: lowercase the title, replace each
maximal run of non [a-z0-9] characters by a dash, keep the first 24
characters, strip dashes from both ends (source: _paper_id, line 485). -/
def slugify (title : String) : String :=
  let mapped := (lowerStr title).toList.map (fun c => if isSlugChar c then c else '-')
  let stripped :=
    ((((collapseD false mapped).take 24).dropWhile (fun c => c = '-')).reverse.dropWhile
      (fun c => c = '-')).reverse
  String.mk stripped

/-- Lowercase hexadecimal digit. -/
def toHexDigit (n : Nat) : Char :=
  if n < 10 then Char.ofNat (48 + n) else Char.ofNat (87 + n)

/-- Fixed-width lowercase hexadecimal rendering of a natural number. -/
def toHexN (n w : Nat) : String :=
  String.mk ((List.range w).map (fun i => toHexDigit (n / 16 ^ (w - 1 - i) % 16)))

/-- Truncated hex digest used for id generation.  In the source this is
hashlib.md5(...).hexdigest() truncated to w hex characters — an external
library primitive.  It is modelled by a concrete deterministic stand-in
(a polynomial rolling hash rendered in w hex digits): no claim below
depends on any property of MD5 beyond the digest being a deterministic
function of its input, which any concrete function provides. -/
def md5HexTrunc (s : String) (w : Nat) : String :=
  toHexN (s.toList.foldl (fun a c => (a * 131 + c.toNat) % 16 ^ w) 0) w

/-- Paper id derivation (_paper_id, lines 482-486): slugified title, a dash,
and the 10-character truncated digest of title concatenated with the
second-resolution UTC stamp (passed here explicitly as tsSec). -/
def paperId (title tsSec : String) : String :=
  slugify title ++ "-" ++ md5HexTrunc (title ++ tsSec) 10

/-- Hypothesis id derivation (line 269): 12-character truncated digest of
paper id, text and timestamp concatenated. -/
def hypId (pid text ts : String) : String := md5HexTrunc (pid ++ text ++ ts) 12

/-- Surrogate-pair aware JSON escape of a single character, following
json.dumps with ensure_ascii (the default used by the source): quote and
backslash escaped, the usual short escapes, and all other characters
outside printable ASCII rendered as backslash-u hex escapes. -/
def jsonEscapeChar (c : Char) : String :=
  if c = '"' then "\\\""
  else if c = '\\' then "\\\\"
  else if c = '\n' then "\\n"
  else if c = '\t' then "\\t"
  else if c = '\r' then "\\r"
  else if c.toNat = 8 then "\\b"
  else if c.toNat = 12 then "\\f"
  else if c.toNat < 32 || 126 < c.toNat then
    if c.toNat ≤ 65535 then "\\u" ++ toHexN c.toNat 4
    else
      "\\u" ++ toHexN (55296 + (c.toNat - 65536) / 1024) 4 ++
      "\\u" ++ toHexN (56320 + (c.toNat - 65536) % 1024) 4
  else String.singleton c

/-- JSON escape of a whole string. -/
def jsonEscape (s : String) : String := String.join (s.toList.map jsonEscapeChar)

/-- json.dumps of a list of strings with the default separators: this is the
exact text stored in the papers.tags column (and searched by the LIKE
fallback). -/
def jsonEncodeList (xs : List String) : String :=
  "[" ++ intercalateStr ", " (xs.map (fun s => "\"" ++ jsonEscape s ++ "\"")) ++ "]"

/-- Space-joined tag text stored in the papers_fts projection (line 223). -/
def joinSpace (xs : List String) : String := intercalateStr " " xs

/-- A row of the papers relation.  authors, tags and metadata are stored as
JSON text in SQLite; authors and tags are modelled as the decoded lists
(every write goes through json.dumps and every read through json.loads, an
exact round trip for lists of strings), while the open-ended metadata blob
is carried as its JSON text. -/
structure PaperRow where
  id : String
  title : String
  abstract : String
  authors : List String
  tags : List String
  status : String
  score : ℚ
  created_at : String
  updated_at : String
  metadata : String
deriving DecidableEq

/-- A row of the hypotheses relation. -/
structure HypRow where
  id : String
  paper_id : String
  text : String
  status : String
  confidence : ℚ
  evidence : List String
  created_at : String
  updated_at : String
deriving DecidableEq

/-- A row of the citations relation; rowId models the AUTOINCREMENT key. -/
structure CitRow where
  rowId : Nat
  paper_id : String
  ref_id : String
  title : String
  authors : List String
  year : Option Int
  url : String
  notes : String
deriving DecidableEq

/-- A row of the papers_fts search projection: the denormalized searchable
copy of title, abstract and space-joined tags, keyed by paper id. -/
structure FtsRow where
  id : String
  title : String
  abstract : String
  tags : String
deriving DecidableEq

/-- The whole persistent state: the four relations, each as a list of rows
in insertion (rowid) order, plus the next AUTOINCREMENT value for
citations. -/
structure DB where
  papers : List PaperRow
  hyps : List HypRow
  cits : List CitRow
  fts : List FtsRow
  nextCitId : Nat
deriving DecidableEq

/-- The freshly initialised empty store. -/
def emptyDB : DB := ⟨[], [], [], [], 1⟩

/-- The Hypothesis dataclass (lines 35-50). -/
structure Hypothesis where
  id : String
  text : String
  status : String
  confidence : ℚ
  evidence : List String
  created_at : String
  updated_at : String
deriving DecidableEq

/-- Hypothesis.is_active (line 46): status is proposed or testing. -/
def Hypothesis.isActive (h : Hypothesis) : Bool :=
  h.status == "proposed" || h.status == "testing"

/-- Hypothesis.update_confidence (line 49): clamp confidence plus delta
into the unit interval (an in-memory dataclass method; the SQL-level
mutators below do not call it). -/
def Hypothesis.updateConfidence (h : Hypothesis) (delta : ℚ) : Hypothesis :=
  { h with confidence := max 0 (min 1 (h.confidence + delta)) }

/-- The Citation dataclass (lines 53-61). -/
structure Citation where
  ref_id : String
  title : String
  authors : List String
  year : Option Int
  url : String
  notes : String
deriving DecidableEq

/-- The ResearchPaper dataclass (lines 64-110). -/
structure ResearchPaper where
  id : String
  title : String
  abstract : String
  authors : List String
  tags : List String
  hypotheses : List Hypothesis
  citations : List Citation
  status : String
  score : ℚ
  created_at : String
  updated_at : String
  metadata : String
deriving DecidableEq

/-- ResearchPaper.avg_confidence (lines 102-104): mean confidence over the
active hypotheses, None when there are none. -/
def ResearchPaper.avgConfidence (p : ResearchPaper) : Option ℚ :=
  let active := (p.hypotheses.filter (fun h => h.isActive)).map (fun h => h.confidence)
  if active.isEmpty then none else some (active.sum / active.length)

/-- ResearchPaper.confirmed_hypotheses (lines 99-100). -/
def ResearchPaper.confirmedHypotheses (p : ResearchPaper) : List Hypothesis :=
  p.hypotheses.filter (fun h => h.status == "confirmed")

/-- Python string truthiness for an optional argument: None and the empty
string are falsy, so the stored default d is used for both (models
expressions of the form argument or storedValue). -/
def pyOrStr (o : Option String) (d : String) : String :=
  match o with
  | none => d
  | some s => if s = "" then d else s

/-- Python list truthiness for an optional argument: None and the empty
list are falsy, so the stored default d is used for both. -/
def pyOrList (o : Option (List String)) (d : List String) : List String :=
  match o with
  | none => d
  | some l => if l = [] then d else l

/-- add_paper (lines 186-225).  The canonical insert is INSERT OR IGNORE
against the id primary key, so a colliding id leaves the papers relation
unchanged; the projection insert targets the fts5 virtual table, which has
no uniqueness constraint, so its OR IGNORE clause never fires and the
projection row is appended unconditionally.  tsSec is the second-resolution
stamp consumed by _paper_id, tsIso the full ISO timestamp from _now(). -/
def addPaper (db : DB) (title abstract : String) (authors tags : List String)
    (metadata tsSec tsIso : String) : String × DB :=
  let pid := paperId title tsSec
  let papers' :=
    if db.papers.any (fun r => r.id = pid) then db.papers
    else db.papers ++ [⟨pid, title, abstract, authors, tags, "draft", 0, tsIso, tsIso, metadata⟩]
  (pid, { db with papers := papers', fts := db.fts ++ [⟨pid, title, abstract, joinSpace tags⟩] })

/-- Conversion of a hypotheses row into the Hypothesis dataclass
(lines 428-435). -/
def rowToHypothesis (h : HypRow) : Hypothesis :=
  ⟨h.id, h.text, h.status, h.confidence, h.evidence, h.created_at, h.updated_at⟩

/-- Conversion of a citations row into the Citation dataclass
(lines 438-445). -/
def rowToCitation (c : CitRow) : Citation :=
  ⟨c.ref_id, c.title, c.authors, c.year, c.url, c.notes⟩

/-- _row_to_paper (lines 421-460): assemble the full entity graph from a
papers row, with hypotheses ordered by created_at (a stable sort models
the SQL ORDER BY) and citations in insertion order. -/
def rowToPaper (db : DB) (row : PaperRow) : ResearchPaper :=
  let hypRows := (db.hyps.filter (fun h => h.paper_id = row.id)).mergeSort
    (fun a b => decide (a.created_at ≤ b.created_at))
  let citRows := db.cits.filter (fun c => c.paper_id = row.id)
  ⟨row.id, row.title, row.abstract, row.authors, row.tags,
   hypRows.map rowToHypothesis, citRows.map rowToCitation,
   row.status, row.score, row.created_at, row.updated_at, row.metadata⟩

/-- get_paper (lines 227-234): first papers row with the id assembled into
the full entity graph, or the not-found sentinel None. -/
def getPaper (db : DB) (pid : String) : Option ResearchPaper :=
  (db.papers.find? (fun r => r.id = pid)).map (rowToPaper db)

/-- update_score (lines 236-240): clamp the score into [0, 10] and refresh
updated_at on every papers row with the id (a silent no-op when none
matches). -/
def updateScore (db : DB) (pid : String) (score : ℚ) (ts : String) : DB :=
  { db with papers := db.papers.map (fun r =>
      if r.id = pid then { r with score := max 0 (min 10 score), updated_at := ts } else r) }

/-- The fixed paper status enum (line 244). -/
def validStatuses : List String := ["draft", "review", "published", "archived"]

/-- update_status (lines 242-249): reject a status outside the enum with
ValueError, otherwise update status and updated_at. -/
def updateStatus (db : DB) (pid status ts : String) : Except String DB :=
  if status ∈ validStatuses then
    .ok { db with papers := db.papers.map (fun r =>
      if r.id = pid then { r with status := status, updated_at := ts } else r) }
  else .error ("Invalid status " ++ status)

/-- delete_paper (lines 251-256): delete the hypotheses and citations rows
carrying the paper id, then the papers row, returning whether a papers row
was removed.  The papers_fts projection is not touched by the source. -/
def deletePaper (db : DB) (pid : String) : Bool × DB :=
  (db.papers.any (fun r => r.id = pid),
   { db with
      hyps := db.hyps.filter (fun h => ¬ h.paper_id = pid),
      cits := db.cits.filter (fun c => ¬ c.paper_id = pid),
      papers := db.papers.filter (fun r => ¬ r.id = pid) })

/-- add_hypothesis (lines 260-280): plain INSERT of a proposed hypothesis
with the given confidence stored as passed (no clamping in the source) and
evidence defaulting to the empty list; a duplicate primary key makes the
INSERT fail.  No existence check is made on paper_id. -/
def addHypothesis (db : DB) (pid text : String) (confidence : ℚ)
    (evidence : Option (List String)) (ts : String) : Except String (String × DB) :=
  let hid := hypId pid text ts
  if db.hyps.any (fun h => h.id = hid) then
    .error "UNIQUE constraint failed: hypotheses.id"
  else
    .ok (hid, { db with hyps := db.hyps ++
      [⟨hid, pid, text, "proposed", confidence, evidence.getD [], ts, ts⟩] })

/-- update_hypothesis (lines 282-302): KeyError when the id is absent;
otherwise the row is rewritten with status taken from the argument under
Python truthiness (None or the empty string keep the stored status),
confidence taken from the argument only when it is not None, evidence
taken from the argument under Python truthiness (None or the empty list
keep the stored evidence), and a refreshed updated_at. -/
def updateHypothesis (db : DB) (hid : String) (status : Option String)
    (confidence : Option ℚ) (evidence : Option (List String)) (ts : String) :
    Except String DB :=
  match db.hyps.find? (fun h => h.id = hid) with
  | none => .error ("Hypothesis " ++ hid ++ " not found")
  | some row =>
    .ok { db with hyps := db.hyps.map (fun h =>
      if h.id = hid then
        { h with
            status := pyOrStr status row.status,
            confidence := confidence.getD row.confidence,
            evidence := pyOrList evidence row.evidence,
            updated_at := ts }
      else h) }

/-- add_citation (lines 306-324): pure append with the AUTOINCREMENT key. -/
def addCitation (db : DB) (pid refId title : String) (authors : List String)
    (year : Option Int) (url notes : String) : DB :=
  { db with
      cits := db.cits ++ [⟨db.nextCitId, pid, refId, title, authors, year, url, notes⟩],
      nextCitId := db.nextCitId + 1 }

/-- The summary projection returned by search and list_papers
(lines 462-471). -/
structure Summary where
  id : String
  title : String
  status : String
  score : ℚ
  authors : List String
  tags : List String
  created_at : String
deriving DecidableEq

/-- _row_to_summary (lines 462-471). -/
def rowToSummary (r : PaperRow) : Summary :=
  ⟨r.id, r.title, r.status, r.score, r.authors, r.tags, r.created_at⟩

/-- search (lines 328-358), modelling the LIKE fallback branch: the primary
branch delegates ranking to the external fts5 engine and is taken only when
that engine accepts the query, so the engine-independent contract is the
fallback's.  A paper matches when the lowercased query is contained in the
lowercased title, abstract, or JSON-encoded tags column text; matches are
returned in table order, truncated to the limit. -/
def search (db : DB) (query : String) (limit : Nat) : List Summary :=
  let q := lowerStr query
  let rows := db.papers.filter (fun r =>
    strContains (lowerStr r.title) q || strContains (lowerStr r.abstract) q ||
      strContains (lowerStr (jsonEncodeList r.tags)) q)
  (rows.take limit).map rowToSummary

/-- The aggregate record returned by corpus_stats (lines 405-413). -/
structure CorpusStats where
  total_papers : Nat
  by_status : List (String × Nat)
  avg_score : ℚ
  total_hypotheses : Nat
  confirmed_hypotheses : Nat
  confirmation_rate : ℚ
  top_tags : List (String × Nat)
deriving DecidableEq

/-- Increment the count of a key in an association list, appending the key
with count one on first sight (models dict.get(k, 0) + 1 in first-seen
order). -/
def bumpKey (m : List (String × Nat)) (k : String) : List (String × Nat) :=
  if m.any (fun p => p.1 = k) then m.map (fun p => if p.1 = k then (p.1, p.2 + 1) else p)
  else m ++ [(k, 1)]

/-- Rounding to two decimal places; Python's float round is modelled by
exact rational rounding to the nearest multiple of one hundredth. -/
def round2 (q : ℚ) : ℚ := (round (q * 100) : ℤ) / 100

/-- Rounding to three decimal places; Python's float round is modelled by
exact rational rounding to the nearest multiple of one thousandth (the
half-ulp bound proved below is valid for either tie-breaking rule). -/
def round3 (q : ℚ) : ℚ := (round (q * 1000) : ℤ) / 1000

/-- corpus_stats (lines 385-413): totals, per-status counts, average over
the positive scores only, hypothesis counts, the guarded confirmation
rate, and the ten most frequent tags (stable descending sort models
Python's sorted with reverse on the first-seen tag order). -/
def corpusStats (db : DB) : CorpusStats :=
  let byStatus := db.papers.foldl (fun m p => bumpKey m p.status) []
  let posScores := (db.papers.map (fun p => p.score)).filter (fun s => 0 < s)
  let avgScore := if posScores.isEmpty then 0 else round2 (posScores.sum / posScores.length)
  let hypCount := db.hyps.length
  let confirmed := (db.hyps.filter (fun h => h.status = "confirmed")).length
  let allTags := db.papers.foldl (fun m p => p.tags.foldl bumpKey m) []
  ⟨db.papers.length, byStatus, avgScore, hypCount, confirmed,
   if hypCount = 0 then 0 else round3 ((confirmed : ℚ) / (hypCount : ℚ)),
   (allTags.mergeSort (fun a b => decide (b.2 ≤ a.2))).take 10⟩

/-- One mutator call of the Entity Store, with every timestamp the Python
code would read from the clock passed explicitly. -/
inductive Mut where
  | addP (title abstract : String) (authors tags : List String) (metadata tsSec tsIso : String)
  | updScore (pid : String) (score : ℚ) (ts : String)
  | updStatus (pid status ts : String)
  | delP (pid : String)
  | addHyp (pid text : String) (confidence : ℚ) (evidence : Option (List String)) (ts : String)
  | updHyp (hid : String) (status : Option String) (confidence : Option ℚ)
      (evidence : Option (List String)) (ts : String)
  | addCit (pid refId title : String) (authors : List String) (year : Option Int)
      (url notes : String)

/-- Apply one mutator; a raising call leaves the store unchanged, since
each operation runs as one transaction that rolls back on an exception. -/
def step (db : DB) : Mut → DB
  | .addP t a au tg md ts1 ts2 => (addPaper db t a au tg md ts1 ts2).2
  | .updScore pid s ts => updateScore db pid s ts
  | .updStatus pid st ts =>
    match updateStatus db pid st ts with
    | .ok d => d
    | .error _ => db
  | .delP pid => (deletePaper db pid).2
  | .addHyp pid tx c ev ts =>
    match addHypothesis db pid tx c ev ts with
    | .ok r => r.2
    | .error _ => db
  | .updHyp hid st c ev ts =>
    match updateHypothesis db hid st c ev ts with
    | .ok d => d
    | .error _ => db
  | .addCit pid r t au y u n => addCitation db pid r t au y u n

/-- Apply a sequence of mutator calls in order. -/
def runMuts (db : DB) (ms : List Mut) : DB := ms.foldl step db

/-- Does the projection row reproduce the paper row's searchable fields? -/
def ftsMatches (f : FtsRow) (p : PaperRow) : Bool :=
  f.id == p.id && f.title == p.title && f.abstract == p.abstract && f.tags == joinSpace p.tags

/-- Every stored paper has a projection row carrying its committed title,
abstract and space-joined tags. -/
def ftsCoversB (db : DB) : Bool :=
  db.papers.all (fun p => db.fts.any (fun f => ftsMatches f p))

/-- Proposition form of ftsCoversB. -/
def ftsCoversP (db : DB) : Prop :=
  ∀ p ∈ db.papers, ∃ f ∈ db.fts,
    f.id = p.id ∧ f.title = p.title ∧ f.abstract = p.abstract ∧ f.tags = joinSpace p.tags

/-- Concrete fixture: a paper whose only hypothesis is confirmed, hence not
active. -/
def exPaperC10 : ResearchPaper :=
  ⟨"p1", "T", "", [], [], [⟨"h1", "X", "confirmed", 1, [], "t0", "t0"⟩], [],
   "draft", 0, "t0", "t0", ""⟩

/-- Concrete fixture: a store holding one hypothesis with one evidence
entry. -/
def exDBC5 : DB := ⟨[], [⟨"h1", "p1", "X", "proposed", 1, ["e1"], "t0", "t0"⟩], [], [], 1⟩

/-- The stored hypothesis row of exDBC5. -/
def exRowC5 : HypRow := ⟨"h1", "p1", "X", "proposed", 1, ["e1"], "t0", "t0"⟩

/-- Concrete fixture: a store holding one paper titled Emergence with two
tags. -/
def exDBC7 : DB :=
  ⟨[⟨"emergence-0000000000", "Emergence", "woo", [], ["x", "y"], "draft", 0, "t0", "t0", ""⟩],
   [], [], [⟨"emergence-0000000000", "Emergence", "woo", "x y"⟩], 1⟩

/-- Concrete fixture: a store holding a single confirmed hypothesis. -/
def exDBC9 : DB := ⟨[], [⟨"h1", "p1", "X", "confirmed", 1, [], "t0", "t0"⟩], [], [], 1⟩

/-- Shared helper: rounding to three decimal places moves a rational by at
most half an ulp. -/
theorem round3_close (q : ℚ) : |round3 q - q| ≤ 1 / 2000 := by
  have h : |(((round (q * 1000) : ℤ) : ℚ)) - q * 1000| ≤ 1 / 2 := by
    rw [abs_sub_comm]; exact abs_sub_round (q * 1000)
  have e : round3 q - q = ((((round (q * 1000) : ℤ) : ℚ)) - q * 1000) / 1000 := by
    unfold round3; ring
  rw [e, abs_div, abs_of_pos (by norm_num : (0 : ℚ) < 1000)]
  linarith

/-- C10: a ResearchPaper whose hypotheses list contains no active
hypothesis (none with status proposed or testing, including the empty
list) gets the None sentinel from avg_confidence rather than a division
fault: the zero-denominator branch is unreachable. -/
theorem avgConfidence_none_of_no_active (p : ResearchPaper)
    (h : p.hypotheses.filter (fun h => h.isActive) = []) :
    p.avgConfidence = none := by
  unfold ResearchPaper.avgConfidence
  simp [h]

/-- Witness for C10 at a concrete paper whose only hypothesis is
confirmed. -/
theorem avgConfidence_none_of_no_active_witness :
    exPaperC10.hypotheses.filter (fun h => h.isActive) = [] ∧
      exPaperC10.avgConfidence = none :=
  ⟨by decide, avgConfidence_none_of_no_active exPaperC10 (by decide)⟩

/-- C2 (code-bug evaluation): add_hypothesis stores the caller's
confidence verbatim — on the empty store, adding a hypothesis with
confidence 2 leaves a stored confidence of 2, which is outside the unit
interval the code's own data model documents (and which the claim says
every mutator clamps to). -/
theorem addHypothesis_stores_unclamped :
    ((addHypothesis emptyDB "p1" "X" 2 none "t1").toOption.map
      (fun r => r.2.hyps.map (fun h => h.confidence))) = some [2] ∧
    ¬ ((2 : ℚ) ≤ 1) := by
  refine ⟨by decide, by norm_num⟩

/-- C9: corpus_stats' confirmation rate is 0 when the store holds no
hypotheses (the division is guarded), and otherwise is the confirmed
fraction rounded to three decimals, hence within one half of a
thousandth of confirmed over total. -/
theorem confirmation_rate_spec (db : DB) :
    (db.hyps.length = 0 → (corpusStats db).confirmation_rate = 0) ∧
    (db.hyps.length ≠ 0 →
      |(corpusStats db).confirmation_rate -
        ((db.hyps.filter (fun h => h.status = "confirmed")).length : ℚ) /
          (db.hyps.length : ℚ)| ≤ 1 / 2000) := by
  constructor
  · intro h
    simp [corpusStats, h]
  · intro h
    simp only [corpusStats, if_neg h]
    exact round3_close _

/-- Witness for C9: the empty store has rate 0; a store with one
confirmed hypothesis has rate within the bound. -/
theorem confirmation_rate_spec_witness :
    (corpusStats emptyDB).confirmation_rate = 0 ∧
    |(corpusStats exDBC9).confirmation_rate -
      ((exDBC9.hyps.filter (fun h => h.status = "confirmed")).length : ℚ) /
        (exDBC9.hyps.length : ℚ)| ≤ 1 / 2000 :=
  ⟨(confirmation_rate_spec emptyDB).1 rfl,
   (confirmation_rate_spec exDBC9).2 (by decide)⟩

/-- C6: delete_paper removes every hypothesis and citation attached to the
paper and the paper itself, returns true exactly when a papers row was
removed, and afterwards get_paper yields the not-found sentinel; no row
carrying the deleted id survives in the papers, hypotheses or citations
relations. -/
theorem deletePaper_spec (db : DB) (pid : String) :
    ((deletePaper db pid).1 = true ↔ ∃ r ∈ db.papers, r.id = pid) ∧
    getPaper (deletePaper db pid).2 pid = none ∧
    (deletePaper db pid).2.hyps.all (fun h => ¬ h.paper_id = pid) = true ∧
    (deletePaper db pid).2.cits.all (fun c => ¬ c.paper_id = pid) = true ∧
    (deletePaper db pid).2.papers.all (fun r => ¬ r.id = pid) = true := by
  refine ⟨?_, ?_, ?_, ?_, ?_⟩
  · simp [deletePaper, List.any_eq_true]
  · have hf : ((deletePaper db pid).2.papers.find? (fun r => r.id = pid)) = none := by
      rw [List.find?_eq_none]
      intro r hr
      simp only [deletePaper, List.mem_filter, decide_eq_true_eq] at hr
      simp [hr.2]
    simp [getPaper, hf]
  · simp [deletePaper, List.all_eq_true, List.mem_filter]
  · simp [deletePaper, List.all_eq_true, List.mem_filter]
  · simp [deletePaper, List.all_eq_true, List.mem_filter]

/-- C8: a second add_paper call with the same title and the same
second-resolution timestamp derives the same colliding id; the canonical
insert is silently ignored, the same id is returned, no stored papers row
and no existing projection row is overwritten or changed — the only
effect is one more (identical) appended projection row, since the fts5
virtual table carries no uniqueness constraint. -/
theorem addPaper_idempotent (db : DB) (title abstract : String)
    (authors tags : List String) (metadata tsSec ts1 ts2 : String) :
    (addPaper (addPaper db title abstract authors tags metadata tsSec ts1).2
        title abstract authors tags metadata tsSec ts2).1 =
      (addPaper db title abstract authors tags metadata tsSec ts1).1 ∧
    (addPaper (addPaper db title abstract authors tags metadata tsSec ts1).2
        title abstract authors tags metadata tsSec ts2).2.papers =
      (addPaper db title abstract authors tags metadata tsSec ts1).2.papers ∧
    (addPaper (addPaper db title abstract authors tags metadata tsSec ts1).2
        title abstract authors tags metadata tsSec ts2).2.fts =
      (addPaper db title abstract authors tags metadata tsSec ts1).2.fts ++
        [⟨paperId title tsSec, title, abstract, joinSpace tags⟩] ∧
    (addPaper (addPaper db title abstract authors tags metadata tsSec ts1).2
        title abstract authors tags metadata tsSec ts2).2.hyps =
      (addPaper db title abstract authors tags metadata tsSec ts1).2.hyps ∧
    (addPaper (addPaper db title abstract authors tags metadata tsSec ts1).2
        title abstract authors tags metadata tsSec ts2).2.cits =
      (addPaper db title abstract authors tags metadata tsSec ts1).2.cits := by
  have hmem : ((addPaper db title abstract authors tags metadata tsSec ts1).2.papers.any
      (fun r => r.id = paperId title tsSec)) = true := by
    by_cases hc : (db.papers.any (fun r => r.id = paperId title tsSec)) = true
    · simp [addPaper, hc]
    · simp only [addPaper, Bool.not_eq_true] at hc ⊢
      rw [if_neg (by simp [hc])]
      simp [List.any_append]
  refine ⟨rfl, ?_, ?_, rfl, rfl⟩
  · simp only [addPaper]
    rw [if_pos (by exact hmem)]
  · simp only [addPaper]

/-- Shared helper: when the derived id is not already stored, add_paper
appends exactly one papers row (status draft, score 0, both timestamps the
supplied now) and one projection row, and returns the id. -/
theorem addPaper_eq_of_fresh (db : DB) (title abstract : String)
    (authors tags : List String) (metadata tsSec tsIso : String)
    (h : db.papers.all (fun r => ¬ r.id = paperId title tsSec) = true) :
    addPaper db title abstract authors tags metadata tsSec tsIso =
      (paperId title tsSec,
        { db with
            papers := db.papers ++ [⟨paperId title tsSec, title, abstract, authors, tags,
              "draft", 0, tsIso, tsIso, metadata⟩],
            fts := db.fts ++ [⟨paperId title tsSec, title, abstract, joinSpace tags⟩] }) := by
  have hn : (db.papers.any (fun r => r.id = paperId title tsSec)) ≠ true := by
    simp only [List.all_eq_true, decide_eq_true_eq] at h
    intro hex
    rw [List.any_eq_true] at hex
    obtain ⟨r, hr, hid⟩ := hex
    exact h r hr (by simpa using hid)
  simp only [addPaper, if_neg hn]

/-- C1 (amended): add_paper performs no validation on the title — for
every title, the empty string included, it derives the id and, when that
id is not already stored, inserts a new Paper with status draft, score 0
and created_at equal to updated_at equal to the supplied now, returning
the id; no ValidationError path exists. -/
theorem addPaper_no_validation (db : DB) (title abstract : String)
    (authors tags : List String) (metadata tsSec tsIso : String)
    (h : db.papers.all (fun r => ¬ r.id = paperId title tsSec) = true) :
    (addPaper db title abstract authors tags metadata tsSec tsIso).1 =
      paperId title tsSec ∧
    (addPaper db title abstract authors tags metadata tsSec tsIso).2.papers =
      db.papers ++ [⟨paperId title tsSec, title, abstract, authors, tags,
        "draft", 0, tsIso, tsIso, metadata⟩] := by
  rw [addPaper_eq_of_fresh db title abstract authors tags metadata tsSec tsIso h]
  exact ⟨rfl, rfl⟩

/-- Witness for C1 at the empty store with an empty title: the insert
happens with status draft and score 0 and the derived id is returned. -/
theorem addPaper_no_validation_witness :
    (emptyDB.papers.all (fun r => ¬ r.id = paperId "" "s0") = true) ∧
    (addPaper emptyDB "" "a" ["au"] ["tg"] "" "s0" "t0").1 = paperId "" "s0" ∧
    (addPaper emptyDB "" "a" ["au"] ["tg"] "" "s0" "t0").2.papers =
      emptyDB.papers ++ [⟨paperId "" "s0", "", "a", ["au"], ["tg"],
        "draft", 0, "t0", "t0", ""⟩] :=
  ⟨by decide, addPaper_no_validation emptyDB "" "a" ["au"] ["tg"] "" "s0" "t0" (by decide)⟩

/-- C1 counterexample: the claim says an empty title fails with
ValidationError and inserts nothing; in fact the call on the empty store
inserts exactly one draft paper with the empty title and raises
nothing. -/
theorem addPaper_empty_title_inserts :
    ((addPaper emptyDB "" "" [] [] "" "s0" "t0").2.papers.map
      (fun r => (r.title, r.status, r.score))) = [("", "draft", 0)] := by decide

/-- C4: get_paper applied to the id returned by add_paper returns a record
whose title, abstract, authors and tags equal the inputs exactly,
sequences in order, whenever the derived id is fresh (a same-second
duplicate of an existing title falls under the insert-if-absent rule
instead). -/
theorem addPaper_getPaper_roundtrip (db : DB) (title abstract : String)
    (authors tags : List String) (metadata tsSec tsIso : String)
    (h : db.papers.all (fun r => ¬ r.id = paperId title tsSec) = true) :
    (getPaper (addPaper db title abstract authors tags metadata tsSec tsIso).2
        (addPaper db title abstract authors tags metadata tsSec tsIso).1).map
      (fun p => (p.title, p.abstract, p.authors, p.tags)) =
      some (title, abstract, authors, tags) := by
  rw [addPaper_eq_of_fresh db title abstract authors tags metadata tsSec tsIso h]
  simp only [getPaper, List.find?_append]
  have hn : (db.papers.find? (fun r => r.id = paperId title tsSec)) = none := by
    rw [List.find?_eq_none]
    intro r hr
    simp only [List.all_eq_true, decide_eq_true_eq] at h
    simp [h r hr]
  rw [hn]
  simp [List.find?, rowToPaper]

/-- Witness for C4 at the empty store with concrete inputs. -/
theorem addPaper_getPaper_roundtrip_witness :
    (getPaper (addPaper emptyDB "T" "A" ["a1", "a2"] ["x", "y"] "" "s0" "t0").2
        (addPaper emptyDB "T" "A" ["a1", "a2"] ["x", "y"] "" "s0" "t0").1).map
      (fun p => (p.title, p.abstract, p.authors, p.tags)) =
      some ("T", "A", ["a1", "a2"], ["x", "y"]) :=
  addPaper_getPaper_roundtrip emptyDB "T" "A" ["a1", "a2"] ["x", "y"] "" "s0" "t0" (by decide)

/-- C5 (amended): for an absent hypothesis id, update_hypothesis fails
with NotFound (KeyError); for the stored row it succeeds and rewrites only
the row with that id, leaving id, text, paper_id and created_at intact,
taking status and evidence from the call under Python truthiness — a None
or empty-string status and a None or empty evidence sequence keep the
stored value, while a non-empty evidence sequence replaces (not appends
to) the stored sequence — taking confidence whenever it is not None
(0.0 included), and refreshing updated_at. -/
theorem updateHypothesis_frame (db : DB) (hid : String) (st : Option String)
    (cf : Option ℚ) (ev : Option (List String)) (ts : String) :
    (db.hyps.find? (fun h => h.id = hid) = none →
      updateHypothesis db hid st cf ev ts =
        .error ("Hypothesis " ++ hid ++ " not found")) ∧
    (∀ row, db.hyps.find? (fun h => h.id = hid) = some row →
      (updateHypothesis db hid st cf ev ts).isOk = true) ∧
    (∀ row db', db.hyps.find? (fun h => h.id = hid) = some row →
      updateHypothesis db hid st cf ev ts = .ok db' →
      db'.papers = db.papers ∧ db'.cits = db.cits ∧ db'.fts = db.fts ∧
      List.Forall₂ (fun h' h : HypRow =>
        h'.id = h.id ∧ h'.text = h.text ∧ h'.paper_id = h.paper_id ∧
        h'.created_at = h.created_at ∧
        (h.id = hid →
          h'.status = pyOrStr st row.status ∧
          h'.confidence = cf.getD row.confidence ∧
          h'.evidence = pyOrList ev row.evidence ∧
          h'.updated_at = ts) ∧
        (¬ h.id = hid → h' = h)) db'.hyps db.hyps) := by
  refine ⟨?_, ?_, ?_⟩
  · intro hf
    simp [updateHypothesis, hf]
  · intro row hf
    simp only [updateHypothesis, hf]
    rfl
  · intro row db' hf hok
    simp only [updateHypothesis, hf] at hok
    injection hok with hok
    subst hok
    refine ⟨rfl, rfl, rfl, ?_⟩
    simp only [List.forall₂_map_left_iff]
    rw [List.forall₂_same]
    intro h _
    by_cases hi : h.id = hid
    · simp [hi]
    · simp [hi]

/-- Witness for C5: updating the stored hypothesis of exDBC5 with a new
status succeeds, and the frame facts hold at the concrete output state. -/
theorem updateHypothesis_frame_witness :
    (updateHypothesis exDBC5 "h1" (some "testing") none none "t1").isOk = true :=
  (updateHypothesis_frame exDBC5 "h1" (some "testing") none none "t1").2.1
    exRowC5 (by decide)

/-- C5 counterexample: the claim says a provided evidence sequence,
including an empty one, replaces the stored sequence; in fact passing the
empty list keeps the stored evidence, because the source's Python
truthiness test treats an empty list as absent. -/
theorem updateHypothesis_empty_evidence_kept :
    ((updateHypothesis exDBC5 "h1" none none (some []) "t1").toOption.map
      (fun d => d.hyps.map (fun h => h.evidence))) = some [["e1"]] ∧
    (["e1"] : List String) ≠ [] := by
  exact ⟨by decide, by decide⟩

/-- Shared helper: the Bool and Prop forms of projection coverage agree. -/
theorem ftsCoversB_iff (db : DB) : ftsCoversB db = true ↔ ftsCoversP db := by
  simp [ftsCoversB, ftsCoversP, List.all_eq_true, List.any_eq_true, ftsMatches,
    Bool.and_eq_true, beq_iff_eq, and_assoc]

/-- Shared helper: coverage transfers along equal papers and fts fields. -/
theorem ftsCoversP_congr (db db' : DB) (hp : db'.papers = db.papers)
    (hf : db'.fts = db.fts) (h : ftsCoversP db) : ftsCoversP db' := by
  intro p hpm
  rw [hp] at hpm
  rw [hf]
  exact h p hpm

/-- Shared helper: coverage is preserved by any papers rewrite that keeps
id, title, abstract and tags. -/
theorem ftsCoversP_map (db : DB) (g : PaperRow → PaperRow)
    (hg : ∀ r, (g r).id = r.id ∧ (g r).title = r.title ∧
      (g r).abstract = r.abstract ∧ (g r).tags = r.tags)
    (h : ftsCoversP db) : ftsCoversP { db with papers := db.papers.map g } := by
  intro p hp
  simp only [List.mem_map] at hp
  obtain ⟨r, hr, rfl⟩ := hp
  obtain ⟨f, hf, h1, h2, h3, h4⟩ := h r hr
  obtain ⟨g1, g2, g3, g4⟩ := hg r
  exact ⟨f, hf, by rw [g1, h1], by rw [g2, h2], by rw [g3, h3], by rw [g4, h4]⟩

/-- Shared helper: add_paper preserves projection coverage — the appended
projection row carries exactly the searchable fields of the appended
papers row (when one is appended at all). -/
theorem ftsCoversP_addPaper (db : DB) (t a : String) (au tg : List String)
    (md ts1 ts2 : String) (h : ftsCoversP db) :
    ftsCoversP (addPaper db t a au tg md ts1 ts2).2 := by
  intro p hp
  simp only [addPaper] at hp ⊢
  by_cases hc : (db.papers.any (fun r => r.id = paperId t ts1)) = true
  · rw [if_pos hc] at hp
    obtain ⟨f, hf, hff⟩ := h p hp
    exact ⟨f, List.mem_append_left _ hf, hff⟩
  · rw [if_neg hc] at hp
    rcases List.mem_append.mp hp with hin | hnew
    · obtain ⟨f, hf, hff⟩ := h p hin
      exact ⟨f, List.mem_append_left _ hf, hff⟩
    · have hp' : p = ⟨paperId t ts1, t, a, au, tg, "draft", 0, ts2, ts2, md⟩ := by
        simpa using hnew
      subst hp'
      exact ⟨⟨paperId t ts1, t, a, joinSpace tg⟩,
        List.mem_append_right _ (by simp), rfl, rfl, rfl, rfl⟩

/-- Shared helper: update_score preserves projection coverage. -/
theorem ftsCoversP_updateScore (db : DB) (pid : String) (s : ℚ) (ts : String)
    (h : ftsCoversP db) : ftsCoversP (updateScore db pid s ts) := by
  unfold updateScore
  refine ftsCoversP_map db _ ?_ h
  intro r
  by_cases hi : r.id = pid
  · simp [hi]
  · simp [hi]

/-- Shared helper: a successful update_status preserves projection
coverage. -/
theorem ftsCoversP_updateStatus (db : DB) (pid st ts : String) (d : DB)
    (hok : updateStatus db pid st ts = .ok d) (h : ftsCoversP db) :
    ftsCoversP d := by
  unfold updateStatus at hok
  split at hok
  · injection hok with hok
    subst hok
    refine ftsCoversP_map db _ ?_ h
    intro r
    by_cases hi : r.id = pid
    · simp [hi]
    · simp [hi]
  · exact absurd hok (by simp)

/-- Shared helper: delete_paper preserves projection coverage (it only
shrinks the papers relation and leaves the projection alone). -/
theorem ftsCoversP_deletePaper (db : DB) (pid : String) (h : ftsCoversP db) :
    ftsCoversP (deletePaper db pid).2 := by
  intro p hp
  simp only [deletePaper] at hp ⊢
  exact h p (List.mem_of_mem_filter hp)

/-- Shared helper: every mutator step preserves projection coverage. -/
theorem ftsCoversP_step (db : DB) (m : Mut) (h : ftsCoversP db) :
    ftsCoversP (step db m) := by
  cases m with
  | addP t a au tg md ts1 ts2 => exact ftsCoversP_addPaper db t a au tg md ts1 ts2 h
  | updScore pid s ts => exact ftsCoversP_updateScore db pid s ts h
  | updStatus pid st ts =>
    cases hres : updateStatus db pid st ts with
    | ok d =>
      simp only [step, hres]
      exact ftsCoversP_updateStatus db pid st ts d hres h
    | error e => simpa only [step, hres] using h
  | delP pid => exact ftsCoversP_deletePaper db pid h
  | addHyp pid tx c ev ts =>
    cases hres : addHypothesis db pid tx c ev ts with
    | ok r =>
      simp only [step, hres]
      refine ftsCoversP_congr db r.2 ?_ ?_ h
      · have : r.2 = { db with hyps := db.hyps ++
          [⟨hypId pid tx ts, pid, tx, "proposed", c, ev.getD [], ts, ts⟩] } := by
          simp only [addHypothesis] at hres
          split at hres
          · exact absurd hres (by simp)
          · injection hres with hres
            rw [← hres]
        rw [this]
      · have : r.2 = { db with hyps := db.hyps ++
          [⟨hypId pid tx ts, pid, tx, "proposed", c, ev.getD [], ts, ts⟩] } := by
          simp only [addHypothesis] at hres
          split at hres
          · exact absurd hres (by simp)
          · injection hres with hres
            rw [← hres]
        rw [this]
    | error e => simpa only [step, hres] using h
  | updHyp hid st c ev ts =>
    cases hres : updateHypothesis db hid st c ev ts with
    | ok d =>
      simp only [step, hres]
      unfold updateHypothesis at hres
      split at hres
      · exact absurd hres (by simp)
      · injection hres with hres
        refine ftsCoversP_congr db d ?_ ?_ h
        · rw [← hres]
        · rw [← hres]
    | error e => simpa only [step, hres] using h
  | addCit pid r t au y u n =>
    exact ftsCoversP_congr db _ rfl rfl h

/-- C3 (amended): starting from any state in which every Paper has a
projection row carrying its committed title, abstract and tags (the empty
store included), every sequence of mutator calls preserves that guarantee:
after every successful mutator a Paper row is never observed without a
projection row reflecting its most recently committed searchable fields.
The converse direction of the original claim is refuted separately:
delete_paper leaves the projection row of a deleted Paper behind. -/
theorem ftsCovers_runMuts (ms : List Mut) (db : DB) (h : ftsCoversB db = true) :
    ftsCoversB (runMuts db ms) = true := by
  rw [ftsCoversB_iff] at h ⊢
  unfold runMuts
  induction ms generalizing db with
  | nil => exact h
  | cons m t ih => exact ih (step db m) (ftsCoversP_step db m h)

/-- Witness for C3 on a concrete mutator sequence from the empty store. -/
theorem ftsCovers_runMuts_witness :
    ftsCoversB emptyDB = true ∧
    ftsCoversB (runMuts emptyDB
      [Mut.addP "A" "a" [] ["x"] "" "s0" "t0",
       Mut.updScore (paperId "A" "s0") 5 "t1",
       Mut.delP (paperId "A" "s0")]) = true :=
  ⟨by decide,
   ftsCovers_runMuts
     [Mut.addP "A" "a" [] ["x"] "" "s0" "t0",
      Mut.updScore (paperId "A" "s0") 5 "t1",
      Mut.delP (paperId "A" "s0")] emptyDB (by decide)⟩

/-- C3 counterexample: after add_paper then delete_paper the papers
relation is empty while the projection still holds the deleted paper's
row, so a Paper row exists iff its projection row exists is false — a
reader observes a projection without its Paper. -/
theorem delete_leaves_stale_fts :
    (deletePaper (addPaper emptyDB "A" "a" [] ["x"] "" "s0" "t0").2
      (addPaper emptyDB "A" "a" [] ["x"] "" "s0" "t0").1).2.papers = [] ∧
    (deletePaper (addPaper emptyDB "A" "a" [] ["x"] "" "s0" "t0").2
      (addPaper emptyDB "A" "a" [] ["x"] "" "s0" "t0").1).2.fts =
      [⟨paperId "A" "s0", "A", "a", "x"⟩] := by
  exact ⟨by decide, by decide⟩

/-- C7 (amended): in the engine-independent fallback semantics, a query
contained in some stored paper's (lowercased) title puts that paper's id
in the search result set whenever the limit admits the whole corpus; and
a query contained in no stored paper's lowercased title, abstract, or
JSON-encoded tags column text yields the empty sequence rather than an
error.  The original claim's quantification over tags as given (rather
than over the stored JSON text, separators included) is refuted
separately. -/
theorem search_spec (db : DB) (query : String) (limit : Nat) :
    (∀ p ∈ db.papers, strContains (lowerStr p.title) (lowerStr query) = true →
      db.papers.length ≤ limit →
      p.id ∈ (search db query limit).map (fun s => s.id)) ∧
    ((∀ p ∈ db.papers, strContains (lowerStr p.title) (lowerStr query) = false ∧
        strContains (lowerStr p.abstract) (lowerStr query) = false ∧
        strContains (lowerStr (jsonEncodeList p.tags)) (lowerStr query) = false) →
      search db query limit = []) := by
  constructor
  · intro p hp ht hlim
    simp only [search]
    have hmem : p ∈ db.papers.filter (fun r =>
        strContains (lowerStr r.title) (lowerStr query) ||
          strContains (lowerStr r.abstract) (lowerStr query) ||
          strContains (lowerStr (jsonEncodeList r.tags)) (lowerStr query)) :=
      List.mem_filter.mpr ⟨hp, by simp [ht]⟩
    rw [List.take_of_length_le (le_trans (List.length_filter_le _ _) hlim)]
    exact List.mem_map.mpr ⟨rowToSummary p, List.mem_map.mpr ⟨p, hmem, rfl⟩, rfl⟩
  · intro hnone
    simp only [search]
    have hfil : db.papers.filter (fun r =>
        strContains (lowerStr r.title) (lowerStr query) ||
          strContains (lowerStr r.abstract) (lowerStr query) ||
          strContains (lowerStr (jsonEncodeList r.tags)) (lowerStr query)) = [] := by
      rw [List.filter_eq_nil_iff]
      intro a ha
      obtain ⟨h1, h2, h3⟩ := hnone a ha
      simp [h1, h2, h3]
    rw [hfil]
    simp

/-- Witness for C7: a query contained in the stored title is found (with
the limit at the corpus size), and a query contained nowhere yields the
empty result. -/
theorem search_spec_witness :
    "emergence-0000000000" ∈ (search exDBC7 "merg" 1).map (fun s => s.id) ∧
    search exDBC7 "zzz" 20 = [] :=
  ⟨(search_spec exDBC7 "merg" 1).1
      ⟨"emergence-0000000000", "Emergence", "woo", [], ["x", "y"], "draft", 0, "t0", "t0", ""⟩
      (by decide) (by decide) (by decide),
   (search_spec exDBC7 "zzz" 20).2 (by decide)⟩

/-- C7 counterexample: the token comma-space occurs in no stored title,
abstract or tag of the corpus exDBC7, yet search returns the paper rather
than the empty sequence, because the fallback's LIKE predicate also scans
the JSON-encoded tags column whose list separators contain a comma. -/
theorem search_matches_json_punctuation :
    strContains (lowerStr "Emergence") (lowerStr ", ") = false ∧
    strContains (lowerStr "woo") (lowerStr ", ") = false ∧
    strContains (lowerStr "x") (lowerStr ", ") = false ∧
    strContains (lowerStr "y") (lowerStr ", ") = false ∧
    (search exDBC7 ", " 20).map (fun s => s.id) = ["emergence-0000000000"] := by
  refine ⟨by decide, by decide, by decide, by decide, by decide⟩

end ResearchAnalyzer
